import Mathlib

/-!
Verification of the GatewayAppUI client-side logic.

This file gives a shallow embedding of the pure/data-manipulating parts of
the dashboard client (`src/services/apiService.ts`, the upload-queue page's
`applyFilters`/`getStatusString`, `Dashboard.loadDashboardData`, the SignalR
upload-update handlers, and the per-page polling lifecycle), together with
theorems settling the specification's claims about them.

JavaScript values are modelled as follows: possibly-`undefined` fields become
`Option`; JS `||` on such fields (which also skips a *defined but falsy*
value such as the empty string) is `jsOrStr`/`jsOrStrD`; JS `??` (nullish
coalescing, which skips only `undefined`/`null`) is `Option.getD`/`<|>`;
machine numbers that the code only compares and divides are modelled as
`Nat`/`Int`.
-/

/- ---------------------------------------------------------------
   apiService.ts : handleApiError (claim C1)
   --------------------------------------------------------------- -/

/-- The `error.response.data` payload: the backend error body.  Each field may
be absent (`none`) or present with a string value; `some ""` models a field
that is defined but empty (falsy in JS). -/
structure ErrorResponseData where
  message : Option String
  Error : Option String
  Details : Option String
  details : Option String
deriving Repr, DecidableEq

/-- The `error.response` object of an axios error. -/
structure ErrorResponse where
  data : Option ErrorResponseData
  status : Option Nat
deriving Repr, DecidableEq

/-- An axios error value as consumed by `handleApiError`. -/
structure JsError where
  response : Option ErrorResponse
  message : Option String
deriving Repr, DecidableEq

/-- The normalized error shape (`src/models/ApiError.ts`): exactly the fields
`message`, `details`, `status`, `data`. -/
structure ApiError where
  message : String
  details : String
  status : Option Nat
  data : Option ErrorResponseData
deriving Repr, DecidableEq

/-- JS `a || b` for two possibly-undefined strings: `a` when it is defined and
truthy (non-empty), otherwise `b`. -/
def jsOrStr (a b : Option String) : Option String :=
  match a with
  | some s => if s = "" then b else some s
  | none => b

/-- JS `a || b` where the final operand `b` is a plain string: the JS `||`
chain returns its last operand when all earlier ones are falsy. -/
def jsOrStrD (a : Option String) (b : String) : String :=
  match a with
  | some s => if s = "" then b else s
  | none => b

/-- Embedding of `handleApiError` (`src/services/apiService.ts:135-151`):
`message = error.response?.data?.message || error.response?.data?.Error ||
error.message || defaultMessage`, `details = error.response?.data?.Details ||
error.response?.data?.details || ''`, `status = error.response?.status`,
`data = error.response?.data`. -/
def handleApiError (error : JsError)
    (defaultMessage : String := "An error occurred") : ApiError :=
  let message := jsOrStrD
    (jsOrStr (jsOrStr ((error.response.bind (·.data)).bind (·.message))
        ((error.response.bind (·.data)).bind (·.Error)))
      error.message)
    defaultMessage
  let details := jsOrStrD
    (jsOrStr ((error.response.bind (·.data)).bind (·.Details))
      ((error.response.bind (·.data)).bind (·.details)))
    ""
  { message := message
    details := details
    status := error.response.bind (·.status)
    data := error.response.bind (·.data) }

/-- The claim's reading of the `message` field: the first *defined* (rather
than first truthy) of the candidates, then the default. -/
def claimFirstDefinedMessage (error : JsError) (defaultMessage : String) : String :=
  (((error.response.bind (·.data)).bind (·.message) <|>
    (error.response.bind (·.data)).bind (·.Error) <|>
    error.message)).getD defaultMessage

/-- The claim's reading of the `details` field: the first *defined* of
`Details` and `details`, else the empty string. -/
def claimFirstDefinedDetails (error : JsError) : String :=
  ((error.response.bind (·.data)).bind (·.Details) <|>
    (error.response.bind (·.data)).bind (·.details)).getD ""

/-- JS `x1 || x2 || ... || last` over possibly-undefined strings: the first
defined *and non-empty* entry, else `last`. -/
def firstTruthy : List (Option String) → String → String
  | [], d => d
  | a :: rest, d =>
    match a with
    | some s => if s = "" then firstTruthy rest d else s
    | none => firstTruthy rest d

/-- A concrete error whose `response.data.message` and `response.data.Details`
are defined but empty strings. -/
def cexError : JsError :=
  { response := some
      { data := some
          { message := some ""
            Error := none
            Details := some ""
            details := some "inner detail" }
        status := some 500 }
    message := some "boom" }

/- ---------------------------------------------------------------
   apiService.ts : the 401 response interceptor (claim C2)
   --------------------------------------------------------------- -/

/-- The browser state the response interceptor touches: the
`window.localStorage` key/value store and `window.location.href`. -/
structure BrowserState where
  localStorage : List (String × String)
  locationHref : String
deriving Repr, DecidableEq

/-- `localStorage.removeItem(key)`: drop every entry stored under `key`. -/
def removeItem (store : List (String × String)) (key : String) :
    List (String × String) :=
  store.filter (fun kv => kv.1 != key)

/-- The `response` object attached to an axios rejection, as far as the
interceptor reads it. -/
structure AxiosErrorResponse where
  status : Nat
deriving Repr, DecidableEq

/-- An axios rejection value; `response` is absent for network-level errors. -/
structure AxiosError where
  response : Option AxiosErrorResponse
deriving Repr, DecidableEq

/-- Embedding of the response interceptor's error branch
(`src/services/apiService.ts:39-49`): on `error.response?.status === 401`
remove the stored `authToken` and set `window.location.href = "/login"`;
always return `Promise.reject(error)` (the `Bool` component). -/
def onResponseError (error : AxiosError) (st : BrowserState) :
    BrowserState × Bool :=
  if error.response.map (·.status) = some 401 then
    ({ localStorage := removeItem st.localStorage "authToken"
       locationHref := "/login" }, true)
  else
    (st, true)

/- ---------------------------------------------------------------
   apiService.ts : getStatusColor (claim C5)
   --------------------------------------------------------------- -/

/-- JS `s.toLowerCase()`, character by character (every string the claims
compare is ASCII, where `Char.toLower` agrees with JS). -/
def jsToLower (s : String) : String := String.mk (s.toList.map Char.toLower)

/-- The argument of `getStatusColor` (`status?: string | any`): either a JS
string, or a non-string value of which only `String(status || '')` matters —
`none` when the value is falsy (so the conversion yields `""`), `some r` with
its string conversion `r` when truthy. -/
inductive StatusValue where
  | str : String → StatusValue
  | nonString : Option String → StatusValue
deriving Repr, DecidableEq

/-- `typeof status === "string" ? status : String(status || '')`. -/
def statusToStr : StatusValue → String
  | .str s => s
  | .nonString none => ""
  | .nonString (some r) => r

/-- Embedding of `getStatusColor` (`src/services/apiService.ts:175-199`): a
switch on `statusStr.toLowerCase()` whose fall-through case groups are the
four membership tests below, with default `"#1890ff"`. -/
def getStatusColor (status : StatusValue) : String :=
  let lower := jsToLower (statusToStr status)
  if lower ∈ ["completed", "success", "active", "connected"] then "#52c41a"
  else if lower ∈ ["failed", "error", "disconnected"] then "#ff4d4f"
  else if lower ∈ ["pending", "processing", "uploading", "warning"] then "#faad14"
  else if lower ∈ ["paused", "inactive", "disabled"] then "#d9d9d9"
  else "#1890ff"

/-- All strings the switch recognises (lower-cased). -/
def recognisedStatuses : List String :=
  ["completed", "success", "active", "connected",
   "failed", "error", "disconnected",
   "pending", "processing", "uploading", "warning",
   "paused", "inactive", "disabled"]

/- ---------------------------------------------------------------
   apiService.ts : formatDuration (claim C8)
   --------------------------------------------------------------- -/

/-- Embedding of `formatDuration` (`src/services/apiService.ts:161-173`) on a
non-negative integer number of milliseconds; `Math.floor` of a non-negative
division is `Nat` division. -/
def formatDuration (milliseconds : Nat) : String :=
  let seconds := milliseconds / 1000
  let minutes := seconds / 60
  let hours := minutes / 60
  if hours > 0 then
    toString hours ++ "h " ++ toString (minutes % 60) ++ "m " ++
      toString (seconds % 60) ++ "s"
  else if minutes > 0 then
    toString minutes ++ "m " ++ toString (seconds % 60) ++ "s"
  else
    toString seconds ++ "s"

/- ---------------------------------------------------------------
   apiService.ts : formatFileSize (claim C9)
   --------------------------------------------------------------- -/

/-- The unit table of `formatFileSize`. -/
def sizes : List String := ["Bytes", "KB", "MB", "GB"]

/-- The unit index `Math.floor(Math.log(bytes) / Math.log(1024))`: for
`bytes ≥ 1`, with exact real logarithms this is the floor of the base-1024
logarithm, i.e. `Nat.log 1024 bytes`. -/
def jsUnitIndex (bytes : Nat) : Nat := Nat.log 1024 bytes

/-- The numeric prefix `parseFloat((bytes / Math.pow(1024, i)).toFixed(2))`
rendered from exact rationals (truncated to hundredths where JS rounds;
trailing zeros dropped as `parseFloat` does).  The claims under verification
do not depend on this prefix. -/
def sizeMantissa (bytes i : Nat) : String :=
  let denom := 1024 ^ i
  let whole := bytes / denom
  let hund := bytes % denom * 100 / denom
  if hund = 0 then toString whole
  else if hund % 10 = 0 then toString whole ++ "." ++ toString (hund / 10)
  else if hund < 10 then toString whole ++ ".0" ++ toString hund
  else toString whole ++ "." ++ toString hund

/-- The unit actually concatenated: `sizes[i]`, which in JS is the value
`undefined` (rendered `"undefined"` by string concatenation) when `i` falls
outside the table. -/
def unitOf (bytes : Nat) : String := sizes.getD (jsUnitIndex bytes) "undefined"

/-- Embedding of `formatFileSize` (`src/services/apiService.ts:153-159`). -/
def formatFileSize (bytes : Nat) : String :=
  if bytes = 0 then "0 Bytes"
  else sizeMantissa bytes (jsUnitIndex bytes) ++ " " ++ unitOf bytes

/- ---------------------------------------------------------------
   UploadQueue page : getStatusString and applyFilters (claims C3, C10)
   --------------------------------------------------------------- -/

/-- The numeric `FileStatus` enum (`src/models/QueueSummary.ts`); a runtime
value of the enum type is just a JS number, modelled as `Int`. -/
def FileStatus.Pending : Int := 0
def FileStatus.Processing : Int := 1
def FileStatus.Uploading : Int := 2
def FileStatus.Completed : Int := 3
def FileStatus.Failed : Int := 4
def FileStatus.Archived : Int := 5

/-- Embedding of the enum-variant page's `getStatusString`
(`pages/UploadQueue.tsx`, enum variant, lines 44-55): a switch over the
`FileStatus` cases, with `FileStatus.Archived` rendered `"Canceled"` and a
default of `"Unknown"`. -/
def getStatusString (status : Int) : String :=
  if status = FileStatus.Pending then "Pending"
  else if status = FileStatus.Processing then "Processing"
  else if status = FileStatus.Uploading then "Uploading"
  else if status = FileStatus.Completed then "Completed"
  else if status = FileStatus.Failed then "Failed"
  else if status = FileStatus.Archived then "Canceled"
  else "Unknown"

/-- A row of the upload queue in the enum variant
(`src/models/QueueSummary.ts`, `RecentUpload` with a numeric `status`). -/
structure RecentUpload where
  id : Int
  fileName : String
  status : Int
  createdAt : String
  completedAt : Option String
  fileSizeBytes : Nat
  attemptCount : Nat
  errorMessage : Option String
  progressPercent : Nat
deriving Repr, DecidableEq

/-- A row of the upload queue in the string-status variant (the duplicated
`UploadQueue` page whose filter calls `item.status.toLowerCase()`). -/
structure RecentUploadB where
  id : Int
  fileName : String
  status : String
  createdAt : String
  completedAt : Option String
  fileSizeBytes : Nat
  attemptCount : Nat
  errorMessage : Option String
  progressPercent : Nat
deriving Repr, DecidableEq

/-- The page-local filter state. -/
structure Filters where
  status : String
  fileType : String
  source : String
  search : String
deriving Repr, DecidableEq

/-- `fileName.split('.').pop()?.toLowerCase()`: `split` on a non-empty
separator never yields an empty array, so `pop` is the last fragment. -/
def fileExtension (fileName : String) : String :=
  jsToLower ((fileName.splitOn ".").getLastD "")

/-- Substring test on character lists (JS `String.prototype.includes`). -/
def charsHasSub (needle : List Char) : List Char → Bool
  | [] => needle.isEmpty
  | c :: rest => needle.isPrefixOf (c :: rest) || charsHasSub needle rest

/-- JS `s.includes(sub)`. -/
def jsIncludes (s sub : String) : Bool := charsHasSub sub.toList s.toList

/-- The enum variant's status predicate:
`getStatusString(item.status).toLowerCase() === filters.status.toLowerCase()`. -/
def statusPredA (filters : Filters) (item : RecentUpload) : Bool :=
  jsToLower (getStatusString item.status) == jsToLower filters.status

/-- The string variant's status predicate:
`item.status.toLowerCase() === filters.status.toLowerCase()`. -/
def statusPredB (filters : Filters) (item : RecentUploadB) : Bool :=
  jsToLower item.status == jsToLower filters.status

/-- The file-type predicate shared by both variants (the body of the second
`filter`, including its trailing `return true`). -/
def fileTypePred (filters : Filters) (fileName : String) : Bool :=
  let extension := fileExtension fileName
  if filters.fileType = "json" then extension == "json"
  else if filters.fileType = "image" then
    ["jpg", "jpeg", "png", "gif", "bmp"].contains extension
  else if filters.fileType = "other" then
    !(["json", "jpg", "jpeg", "png", "gif", "bmp"].contains extension)
  else true

/-- The search predicate shared by both variants:
`item.fileName.toLowerCase().includes(filters.search.toLowerCase())`. -/
def searchPred (filters : Filters) (fileName : String) : Bool :=
  jsIncludes (jsToLower fileName) (jsToLower filters.search)

/-- Embedding of `applyFilters` in the enum variant (`pages/UploadQueue.tsx`,
lines 78-107): three sequential conditional `filter` passes over a copy of
`queueData`. -/
def applyFiltersA (queueData : List RecentUpload) (filters : Filters) :
    List RecentUpload :=
  let filtered := queueData
  let filtered :=
    if filters.status != "all" then filtered.filter (statusPredA filters)
    else filtered
  let filtered :=
    if filters.fileType != "all" then
      filtered.filter (fun item => fileTypePred filters item.fileName)
    else filtered
  let filtered :=
    if filters.search != "" then
      filtered.filter (fun item => searchPred filters item.fileName)
    else filtered
  filtered

/-- Embedding of `applyFilters` in the string-status variant (lines 66-95 of
the duplicated page): identical save for the status comparison. -/
def applyFiltersB (queueData : List RecentUploadB) (filters : Filters) :
    List RecentUploadB :=
  let filtered := queueData
  let filtered :=
    if filters.status != "all" then filtered.filter (statusPredB filters)
    else filtered
  let filtered :=
    if filters.fileType != "all" then
      filtered.filter (fun item => fileTypePred filters item.fileName)
    else filtered
  let filtered :=
    if filters.search != "" then
      filtered.filter (fun item => searchPred filters item.fileName)
    else filtered
  filtered

/-- The claim's combined row predicate for the enum variant: the conjunction
of the three active predicates, a value of `"all"` (or an empty search)
excluding no rows. -/
def rowPassesA (filters : Filters) (item : RecentUpload) : Bool :=
  (filters.status == "all" || statusPredA filters item) &&
  (filters.fileType == "all" || fileTypePred filters item.fileName) &&
  (filters.search == "" || searchPred filters item.fileName)

/-- The claim's combined row predicate for the string-status variant. -/
def rowPassesB (filters : Filters) (item : RecentUploadB) : Bool :=
  (filters.status == "all" || statusPredB filters item) &&
  (filters.fileType == "all" || fileTypePred filters item.fileName) &&
  (filters.search == "" || searchPred filters item.fileName)

/- ---------------------------------------------------------------
   Dashboard.tsx : loadDashboardData over Promise.allSettled (claim C4)
   --------------------------------------------------------------- -/

/-- `ActiveUploadInfo` (`src/models/Upload.ts`). -/
structure ActiveUploadInfo where
  id : Int
  fileName : String
  fileSize : Int
  uploadedBytes : Int
  status : String
  startedAt : String
  lastUpdatedAt : String
  error : Option String
deriving Repr, DecidableEq

/-- `UploadProcessStatus` (`src/models/Upload.ts`). -/
structure UploadProcessStatus where
  isRunning : Bool
  isPaused : Bool
  startedAt : String
  activeUploads : Int
  pendingCount : Int
  failedCount : Int
  completedCount : Int
  totalBytesUploaded : Int
  averageUploadSpeedMbps : Int
  lastUploadCompleted : Option String
  activeUploadInfo : List ActiveUploadInfo
  recentErrors : List String
deriving Repr, DecidableEq

/-- `DataSourceStatus` (`src/models/FileMonitorStatus.ts`); the
`DataSourceType` enum value is a JS number. -/
structure DataSourceStatus where
  id : Int
  name : String
  type : Int
  isEnabled : Bool
  isActive : Bool
  lastActivity : Option String
  filesProcessed : Int
  lastError : Option String
  lastErrorAt : Option String
deriving Repr, DecidableEq

/-- `FileMonitoringStatus` (`src/models/FileMonitorStatus.ts`). -/
structure FileMonitoringStatus where
  isRunning : Bool
  startedAt : String
  activeFolderWatchers : Int
  activeApiPollers : Int
  totalFilesProcessed : Int
  lastFileProcessed : Option String
  dataSources : List DataSourceStatus
deriving Repr, DecidableEq

/-- `DatabaseHealth` (`src/models/Health.ts`). -/
structure DatabaseHealth where
  status : String
  canConnect : Bool
  provider : String
deriving Repr, DecidableEq

/-- `AzureStorageHealth` (`src/models/Health.ts`). -/
structure AzureStorageHealth where
  status : String
  isConnected : Bool
deriving Repr, DecidableEq

/-- `FileMonitoringHealth` (`src/models/Health.ts`). -/
structure FileMonitoringHealth where
  status : String
  isRunning : Bool
  startedAt : String
  totalFilesProcessed : Int
deriving Repr, DecidableEq

/-- `HealthStatus` (`src/models/Health.ts`). -/
structure HealthStatus where
  status : String
  timestamp : String
  database : DatabaseHealth
  azureStorage : AzureStorageHealth
  fileMonitoring : FileMonitoringHealth
  isHealthy : Bool
  issues : List String
  checkedAt : String
deriving Repr, DecidableEq

/-- `AzureStorageInfo` (`src/models/AzureStorageInfo.ts`). -/
structure AzureStorageInfo where
  isConnected : Bool
  accountName : String
  containers : List String
  errorMessage : Option String
deriving Repr, DecidableEq

/-- A raw element of `queueSummary.recentUploads` as the dashboard reads it:
each casing may be present or absent (`(u as any).FileName ?? (u as any).fileName`). -/
structure RawRecentUpload where
  FileName : Option String
  fileName : Option String
  FileSizeBytes : Option Int
  fileSize : Option Int
  CreatedAt : Option String
  createdAt : Option String
  Status : Option String
  status : Option String
  ErrorMessage : Option String
  ProgressPercent : Option Int
deriving Repr, DecidableEq

/-- The queue summary consumed by the dashboard; `recentUploads` may be
absent (`queueData.recentUploads || []`). -/
structure QueueSummary where
  pendingCount : Int
  failedCount : Int
  recentUploads : Option (List RawRecentUpload)
  totalSizeBytes : Int
  oldestPending : Option String
  newestPending : Option String
deriving Repr, DecidableEq

/-- The dashboard's normalized `UploadItem`. -/
structure UploadItem where
  FileName : String
  FileSizeBytes : Int
  CreatedAt : String
  Status : String
  ErrorMessage : Option String
  ProgressPercent : Option Int
deriving Repr, DecidableEq

/-- The dashboard's component state. -/
structure DashboardData where
  processorStatus : Option UploadProcessStatus
  monitoringStatus : Option FileMonitoringStatus
  queueSummary : Option QueueSummary
  systemHealth : Option HealthStatus
  azureInfo : Option AzureStorageInfo
  recentUploads : List UploadItem
deriving Repr, DecidableEq

/-- The `??`-chain normalization of one raw upload (`Dashboard.tsx:88-95`);
`now` is `new Date().toISOString()` at processing time. -/
def normalizeUpload (now : String) (u : RawRecentUpload) : UploadItem :=
  { FileName := (u.FileName <|> u.fileName).getD ""
    FileSizeBytes := (u.FileSizeBytes <|> u.fileSize).getD 0
    CreatedAt := (u.CreatedAt <|> u.createdAt).getD now
    Status := (u.Status <|> u.status).getD "Pending"
    ErrorMessage := u.ErrorMessage
    ProgressPercent := u.ProgressPercent }

/-- The settled outcomes of the dashboard's five parallel fetches: `some`
payload for a fulfilled fetch, `none` for a rejected one
(`Promise.allSettled` itself never rejects). -/
structure SettledResponses where
  processorResponse : Option UploadProcessStatus
  monitoringResponse : Option FileMonitoringStatus
  queueResponse : Option QueueSummary
  healthResponse : Option HealthStatus
  azureResponse : Option AzureStorageInfo
deriving Repr, DecidableEq

/-- Embedding of the response-processing core of `loadDashboardData`
(`src/pages/Dashboard.tsx:55-115`): start from a copy of the previous state
and overwrite a slice only when its fetch fulfilled.  The function is total:
no settled outcome makes it throw. -/
def processSettledResponses (now : String) (prev : DashboardData)
    (r : SettledResponses) : DashboardData :=
  let newData := prev
  let newData :=
    match r.processorResponse with
    | some v => { newData with processorStatus := some v }
    | none => newData
  let newData :=
    match r.monitoringResponse with
    | some v => { newData with monitoringStatus := some v }
    | none => newData
  let newData :=
    match r.queueResponse with
    | some q =>
      { newData with
        queueSummary := some q
        recentUploads := (q.recentUploads.getD []).map (normalizeUpload now) }
    | none => newData
  let newData :=
    match r.healthResponse with
    | some v => { newData with systemHealth := some v }
    | none => newData
  let newData :=
    match r.azureResponse with
    | some v => { newData with azureInfo := some v }
    | none => newData
  newData

/- ---------------------------------------------------------------
   SignalRContext.tsx : the upload-update handlers (claim C6)
   --------------------------------------------------------------- -/

/-- An entry of the in-memory `uploadUpdates` list (`SignalRContext.tsx`). -/
structure UploadUpdate where
  uploadId : String
  fileName : String
  percentComplete : Int
  bytesUploaded : Int
  totalBytes : Int
  timestamp : String
deriving Repr, DecidableEq

/-- Payload of an `UploadProgressUpdated` hub event. -/
structure UploadProgressData where
  UploadId : String
  FileName : String
  PercentComplete : Int
  BytesUploaded : Int
  TotalBytes : Int
deriving Repr, DecidableEq

/-- Payload of an `UploadCompleted` hub event. -/
structure UploadCompletedData where
  UploadId : String
  FileName : String
  Duration : Int
deriving Repr, DecidableEq

/-- Payload of an `UploadFailed` hub event. -/
structure UploadFailedData where
  UploadId : String
  FileName : String
  Error : String
deriving Repr, DecidableEq

/-- The entry appended by the progress handler; `now` is `new Date()` at
handling time. -/
def mkUpdate (d : UploadProgressData) (now : String) : UploadUpdate :=
  { uploadId := d.UploadId
    fileName := d.FileName
    percentComplete := d.PercentComplete
    bytesUploaded := d.BytesUploaded
    totalBytes := d.TotalBytes
    timestamp := now }

/-- The `UploadProgressUpdated` handler (`SignalRContext.tsx:76-88`): drop any
entry with the event's id, then append a fresh entry. -/
def onUploadProgressUpdated (d : UploadProgressData) (now : String)
    (prev : List UploadUpdate) : List UploadUpdate :=
  let updated := prev.filter (fun item => item.uploadId != d.UploadId)
  updated ++ [mkUpdate d now]

/-- The `UploadCompleted` handler (`SignalRContext.tsx:90-96`): remove the
entry for the completed upload (the notification is a separate effect). -/
def onUploadCompleted (d : UploadCompletedData)
    (prev : List UploadUpdate) : List UploadUpdate :=
  prev.filter (fun item => item.uploadId != d.UploadId)

/-- The `UploadFailed` handler (`SignalRContext.tsx:98-104`). -/
def onUploadFailed (d : UploadFailedData)
    (prev : List UploadUpdate) : List UploadUpdate :=
  prev.filter (fun item => item.uploadId != d.UploadId)

/-- One push-channel event as it reaches the `uploadUpdates` list. -/
inductive HubEvent where
  | progressUpdated (d : UploadProgressData) (now : String)
  | uploadCompleted (d : UploadCompletedData)
  | uploadFailed (d : UploadFailedData)
deriving Repr, DecidableEq

/-- Apply one event to the list. -/
def applyHubEvent (prev : List UploadUpdate) : HubEvent → List UploadUpdate
  | .progressUpdated d now => onUploadProgressUpdated d now prev
  | .uploadCompleted d => onUploadCompleted d prev
  | .uploadFailed d => onUploadFailed d prev

/-- The `uploadUpdates` list after a sequence of events, starting from the
initial empty list (`useState<UploadUpdate[]>([])`). -/
def applyHubEvents (events : List HubEvent) : List UploadUpdate :=
  events.foldl applyHubEvent []

/- ---------------------------------------------------------------
   Polling lifecycle of the pages (claim C7)
   --------------------------------------------------------------- -/

/-- The pages that poll: each calls its fetch once on mount and registers one
`setInterval` timer, cleared by the effect cleanup. -/
inductive PollingPage where
  | dashboard
  | systemHealth
  | uploadQueue
  | apiDataSources
deriving Repr, DecidableEq

/-- The literal period passed to `setInterval` by each page:
`Dashboard.tsx` 30000, the system-health page 30000, the upload-queue page
10000 ("Refresh every 10 seconds"), `APIDataSources.tsx` 15000. -/
def pollPeriodMs : PollingPage → Nat
  | .dashboard => 30000
  | .systemHealth => 30000
  | .uploadQueue => 10000
  | .apiDataSources => 15000

/-- Lifecycle events of one page component: the mount effect, a firing of the
registered interval (carrying whether the fetch succeeded), and the cleanup
on unmount. -/
inductive PageEvent where
  | mount
  | timerFire (ok : Bool)
  | unmount
deriving Repr, DecidableEq

/-- Observable runtime of one page: the registered interval period (if any),
how many times the fetch ran, and how many error toasts were shown. -/
structure PageRuntime where
  timer : Option Nat
  fetches : Nat
  notifications : Nat
deriving Repr, DecidableEq

/-- Before mount: no timer, no fetch, no toast. -/
def initialRuntime : PageRuntime :=
  { timer := none, fetches := 0, notifications := 0 }

/-- The lifecycle step of a polling page: mount fetches once and registers
the page's fixed interval; a firing of a live timer re-runs the same fetch
(a failed poll only adds a toast); unmount clears the timer; a cleared timer
fires no more. -/
def pageStep (page : PollingPage) (s : PageRuntime) : PageEvent → PageRuntime
  | .mount =>
    { s with fetches := s.fetches + 1, timer := some (pollPeriodMs page) }
  | .timerFire ok =>
    match s.timer with
    | some _ =>
      { s with
        fetches := s.fetches + 1
        notifications := if ok then s.notifications else s.notifications + 1 }
    | none => s
  | .unmount => { s with timer := none }

/-- The runtime after a sequence of lifecycle events. -/
def pageRun (page : PollingPage) (events : List PageEvent) : PageRuntime :=
  events.foldl (pageStep page) initialRuntime

/- ---------------------------------------------------------------
   Concrete inputs used by counterexamples and witnesses
   --------------------------------------------------------------- -/

/-- A 401 rejection as delivered to the response interceptor. -/
def cex401 : AxiosError := { response := some { status := 401 } }

/-- A browser state holding a token, before the 401 is handled. -/
def cexBrowser : BrowserState :=
  { localStorage := [("authToken", "tok"), ("theme", "dark")]
    locationHref := "/dashboard" }

/-- A queue row whose status is `FileStatus.Archived`. -/
def archivedRow : RecentUpload :=
  { id := 1, fileName := "a.json", status := 5, createdAt := "2024-01-01"
    completedAt := none, fileSizeBytes := 10, attemptCount := 0
    errorMessage := none, progressPercent := 0 }

/-- The filter assignment selecting the status `"archived"`. -/
def archivedFilters : Filters :=
  { status := "archived", fileType := "all", source := "all", search := "" }

/- ---------------------------------------------------------------
   Theorems
   --------------------------------------------------------------- -/

/-- Helper: a one-element JS `||` chain agrees with `firstTruthy`. -/
theorem jsOrStrD_eq_firstTruthy (a : Option String) (d : String) :
    jsOrStrD a d = firstTruthy [a] d := by
  cases a <;> rfl

/-- Helper: a two-element JS `||` chain agrees with `firstTruthy`. -/
theorem jsOr_two_eq_firstTruthy (a b : Option String) (d : String) :
    jsOrStrD (jsOrStr a b) d = firstTruthy [a, b] d := by
  cases a with
  | none =>
    show jsOrStrD b d = firstTruthy [b] d
    exact jsOrStrD_eq_firstTruthy b d
  | some s =>
    by_cases hs : s = ""
    · show jsOrStrD (if s = "" then b else some s) d = _
      rw [if_pos hs]
      show jsOrStrD b d = if s = "" then firstTruthy [b] d else s
      rw [if_pos hs]
      exact jsOrStrD_eq_firstTruthy b d
    · show jsOrStrD (if s = "" then b else some s) d = _
      rw [if_neg hs]
      show (if s = "" then d else s) = if s = "" then firstTruthy [b] d else s
      rw [if_neg hs, if_neg hs]

/-- Helper: a three-element JS `||` chain agrees with `firstTruthy`. -/
theorem jsOr_three_eq_firstTruthy (a b c : Option String) (d : String) :
    jsOrStrD (jsOrStr (jsOrStr a b) c) d = firstTruthy [a, b, c] d := by
  cases a with
  | none =>
    show jsOrStrD (jsOrStr b c) d = firstTruthy [b, c] d
    exact jsOr_two_eq_firstTruthy b c d
  | some s =>
    by_cases hs : s = ""
    · show jsOrStrD (jsOrStr (if s = "" then b else some s) c) d = _
      rw [if_pos hs]
      show jsOrStrD (jsOrStr b c) d = if s = "" then firstTruthy [b, c] d else s
      rw [if_pos hs]
      exact jsOr_two_eq_firstTruthy b c d
    · show jsOrStrD (jsOrStr (if s = "" then b else some s) c) d = _
      rw [if_neg hs]
      show jsOrStrD (if s = "" then c else some s) d = _
      rw [if_neg hs]
      show (if s = "" then d else s) = if s = "" then firstTruthy [b, c] d else s
      rw [if_neg hs, if_neg hs]

/-- Claim C1, counterexample.  `handleApiError` builds `message` and
`details` with JS `||`, which skips a *defined but falsy* (empty-string)
field; the claim's "first defined" reading disagrees on `cexError`, whose
`response.data.message` and `response.data.Details` are defined empty
strings: the code yields `message = "boom"` (from `error.message`) and
`details = "inner detail"` where the claim prescribes `""` for both. -/
theorem C1_counterexample :
    (handleApiError cexError).message = "boom" ∧
    claimFirstDefinedMessage cexError "An error occurred" = "" ∧
    (handleApiError cexError).message ≠
      claimFirstDefinedMessage cexError "An error occurred" ∧
    (handleApiError cexError).details = "inner detail" ∧
    claimFirstDefinedDetails cexError = "" ∧
    (handleApiError cexError).details ≠ claimFirstDefinedDetails cexError := by
  decide

/-- Claim C1, amended: for every error value, `handleApiError` returns a
record with exactly the fields `{message, details, status, data}`, where
`message` is the first defined *and non-empty* (JS-truthy) of
`error.response.data.message`, `error.response.data.Error`, `error.message`,
and the `defaultMessage` argument; `details` is the first defined and
non-empty of `error.response.data.Details` and `error.response.data.details`,
else the empty string; `status` is `error.response.status`; and `data` is
`error.response.data`. -/
theorem C1_handleApiError_shape (error : JsError) (defaultMessage : String) :
    handleApiError error defaultMessage =
      { message := firstTruthy
          [(error.response.bind (·.data)).bind (·.message),
           (error.response.bind (·.data)).bind (·.Error),
           error.message] defaultMessage
        details := firstTruthy
          [(error.response.bind (·.data)).bind (·.Details),
           (error.response.bind (·.data)).bind (·.details)] ""
        status := error.response.bind (·.status)
        data := error.response.bind (·.data) } := by
  simp only [handleApiError]
  rw [jsOr_three_eq_firstTruthy, jsOr_two_eq_firstTruthy]

/-- Claim C2: when a response with status 401 reaches the interceptor's error
branch, the `authToken` entry is removed from local storage (other entries
untouched) and the location is set to `/login`, and the promise is still
rejected; for any error whose status is not 401 the browser state is left
unchanged (and the promise is still rejected). -/
theorem C2_response_interceptor (error : AxiosError) (st : BrowserState) :
    (onResponseError error st).2 = true ∧
    (error.response.map (·.status) = some 401 →
      (∀ kv : String × String,
        kv ∈ (onResponseError error st).1.localStorage ↔
          kv ∈ st.localStorage ∧ kv.1 ≠ "authToken") ∧
      (onResponseError error st).1.locationHref = "/login") ∧
    (error.response.map (·.status) ≠ some 401 →
      (onResponseError error st).1 = st) := by
  refine ⟨?_, ?_, ?_⟩
  · unfold onResponseError; split <;> rfl
  · intro h
    unfold onResponseError
    rw [if_pos h]
    refine ⟨?_, rfl⟩
    intro kv
    simp [removeItem, List.mem_filter]
  · intro h
    unfold onResponseError
    rw [if_neg h]

/-- Claim C2, witness: `C2_response_interceptor` instantiated on a concrete
401 error and a store holding a token. -/
theorem C2_witness :
    ("authToken", "tok") ∉ (onResponseError cex401 cexBrowser).1.localStorage ∧
    ("theme", "dark") ∈ (onResponseError cex401 cexBrowser).1.localStorage ∧
    (onResponseError cex401 cexBrowser).1.locationHref = "/login" ∧
    (onResponseError cex401 cexBrowser).2 = true := by
  obtain ⟨hrej, h401, _⟩ := C2_response_interceptor cex401 cexBrowser
  obtain ⟨hmem, hloc⟩ := h401 (by decide)
  refine ⟨?_, ?_, hloc, hrej⟩
  · intro hin
    exact ((hmem ("authToken", "tok")).1 hin).2 rfl
  · exact (hmem ("theme", "dark")).2 ⟨by decide, by decide⟩

/-- Helper: three sequential conditional `filter` passes equal one `filter`
by the conjunction of the enabled predicates. -/
theorem seq_filter_eq {α : Type} (b1 b2 b3 : Bool) (p1 p2 p3 : α → Bool)
    (l : List α) :
    (if b3 then
        (if b2 then (if b1 then l.filter p1 else l).filter p2
         else (if b1 then l.filter p1 else l)).filter p3
      else
        (if b2 then (if b1 then l.filter p1 else l).filter p2
         else (if b1 then l.filter p1 else l)))
      = l.filter (fun a => (!b1 || p1 a) && (!b2 || p2 a) && (!b3 || p3 a)) := by
  cases b1 <;> cases b2 <;> cases b3 <;>
    simp [List.filter_filter] <;>
    exact List.filter_congr
      (fun x _ => by cases p1 x <;> cases p2 x <;> cases p3 x <;> rfl)

/-- Claim C3: in both duplicated variants of the upload-queue page,
`applyFilters` displays exactly the fetched rows satisfying the conjunction
of the active predicates — status name matching case-insensitively when the
status filter is not `"all"`, extension class matching when the type filter
is not `"all"`, and case-insensitive substring match when the search string
is non-empty — in the original order (`List.filter` preserves order), with
`"all"`/empty search excluding no rows. -/
theorem C3_applyFilters (filters : Filters) (queueData : List RecentUpload)
    (queueDataB : List RecentUploadB) :
    applyFiltersA queueData filters = queueData.filter (rowPassesA filters) ∧
    applyFiltersB queueDataB filters = queueDataB.filter (rowPassesB filters) := by
  constructor
  · simp only [applyFiltersA]
    rw [seq_filter_eq]
    refine List.filter_congr (fun x _ => ?_)
    simp only [rowPassesA, bne, Bool.not_not]
  · simp only [applyFiltersB]
    rw [seq_filter_eq]
    refine List.filter_congr (fun x _ => ?_)
    simp only [rowPassesB, bne, Bool.not_not]

/-- Claim C4: each fulfilled fetch overwrites exactly its own slice of the
dashboard state (the queue fetch owning both `queueSummary` and the
normalized `recentUploads` derived from it), each rejected fetch leaves its
slice at the previous value, and the slices are characterized independently
of the other fetches' outcomes, so a partial failure never blocks the
fulfilled slices; `processSettledResponses` is total, so no settled outcome
makes the load throw. -/
theorem C4_dashboard_slices (now : String) (prev : DashboardData)
    (r : SettledResponses) :
    (processSettledResponses now prev r).processorStatus
        = r.processorResponse.elim prev.processorStatus some ∧
    (processSettledResponses now prev r).monitoringStatus
        = r.monitoringResponse.elim prev.monitoringStatus some ∧
    (processSettledResponses now prev r).queueSummary
        = r.queueResponse.elim prev.queueSummary some ∧
    (processSettledResponses now prev r).recentUploads
        = r.queueResponse.elim prev.recentUploads
            (fun q => (q.recentUploads.getD []).map (normalizeUpload now)) ∧
    (processSettledResponses now prev r).systemHealth
        = r.healthResponse.elim prev.systemHealth some ∧
    (processSettledResponses now prev r).azureInfo
        = r.azureResponse.elim prev.azureInfo some := by
  rcases r with ⟨pr, mo, qu, he, az⟩
  rcases pr <;> rcases mo <;> rcases qu <;> rcases he <;> rcases az <;>
    simp [processSettledResponses, Option.elim]

/-- Claim C5: `getStatusColor` is a pure total lookup returning one of
exactly five colors, matching case-insensitively: the completed group maps
to `"#52c41a"`, the failed group to `"#ff4d4f"`, the pending group to
`"#faad14"`, the paused group to `"#d9d9d9"`, and every other input —
including every non-string value — to `"#1890ff"`. -/
theorem C5_getStatusColor (status : StatusValue) :
    getStatusColor status ∈
      ["#52c41a", "#ff4d4f", "#faad14", "#d9d9d9", "#1890ff"] ∧
    (jsToLower (statusToStr status) ∈
        ["completed", "success", "active", "connected"] →
      getStatusColor status = "#52c41a") ∧
    (jsToLower (statusToStr status) ∈ ["failed", "error", "disconnected"] →
      getStatusColor status = "#ff4d4f") ∧
    (jsToLower (statusToStr status) ∈
        ["pending", "processing", "uploading", "warning"] →
      getStatusColor status = "#faad14") ∧
    (jsToLower (statusToStr status) ∈ ["paused", "inactive", "disabled"] →
      getStatusColor status = "#d9d9d9") ∧
    (jsToLower (statusToStr status) ∉ recognisedStatuses →
      getStatusColor status = "#1890ff") := by
  simp only [getStatusColor]
  split_ifs with h1 h2 h3 h4
  · simp only [List.mem_cons, List.not_mem_nil, or_false] at h1
    rcases h1 with h | h | h | h <;> rw [h] <;> decide
  · simp only [List.mem_cons, List.not_mem_nil, or_false] at h2
    rcases h2 with h | h | h <;> rw [h] <;> decide
  · simp only [List.mem_cons, List.not_mem_nil, or_false] at h3
    rcases h3 with h | h | h | h <;> rw [h] <;> decide
  · simp only [List.mem_cons, List.not_mem_nil, or_false] at h4
    rcases h4 with h | h | h <;> rw [h] <;> decide
  · exact ⟨by decide, fun hm => absurd hm h1, fun hm => absurd hm h2,
      fun hm => absurd hm h3, fun hm => absurd hm h4, fun _ => rfl⟩

/-- Claim C5, witness: `C5_getStatusColor` instantiated on a mixed-case
string and on a falsy non-string value. -/
theorem C5_witness :
    getStatusColor (StatusValue.str "Connected") = "#52c41a" ∧
    getStatusColor (StatusValue.nonString none) = "#1890ff" := by
  exact ⟨(C5_getStatusColor (StatusValue.str "Connected")).2.1 (by decide),
    (C5_getStatusColor (StatusValue.nonString none)).2.2.2.2.2 (by decide)⟩

/-- Helper: one hub event preserves distinctness of the ids in
`uploadUpdates`. -/
theorem applyHubEvent_nodup (l : List UploadUpdate) (e : HubEvent)
    (h : (l.map (fun item => item.uploadId)).Nodup) :
    ((applyHubEvent l e).map (fun item => item.uploadId)).Nodup := by
  cases e with
  | progressUpdated d now =>
    simp only [applyHubEvent, onUploadProgressUpdated, List.map_append,
      List.map_cons, List.map_nil]
    rw [List.nodup_append]
    refine ⟨((List.filter_sublist l).map _).nodup h, by simp, ?_⟩
    intro a ha hb
    simp only [List.mem_cons, List.not_mem_nil, or_false] at hb
    subst hb
    simp only [List.mem_map, List.mem_filter] at ha
    obtain ⟨item, ⟨_, hp⟩, hid⟩ := ha
    rw [bne_iff_ne] at hp
    exact hp (by rw [hid]; rfl)
  | uploadCompleted d =>
    exact ((List.filter_sublist l).map _).nodup h
  | uploadFailed d =>
    exact ((List.filter_sublist l).map _).nodup h

/-- Helper: distinctness of ids is preserved along any event sequence. -/
theorem applyHubEvents_foldl_nodup (events : List HubEvent) :
    ∀ l : List UploadUpdate, (l.map (fun item => item.uploadId)).Nodup →
      ((events.foldl applyHubEvent l).map (fun item => item.uploadId)).Nodup := by
  induction events with
  | nil => intro l h; simpa using h
  | cons e rest ih => intro l h; exact ih _ (applyHubEvent_nodup l e h)

/-- Claim C6: a progress event for upload id U first removes any existing
entry with id U and then appends one entry for U (so the list gains at most
one entry per event, and starting from the initial empty list the ids stay
pairwise distinct over any event sequence); a completion or failure event
for U removes exactly the entries with id U, leaving entries with other ids
unchanged. -/
theorem C6_uploadUpdates (prev : List UploadUpdate) (d : UploadProgressData)
    (now : String) (dc : UploadCompletedData) (df : UploadFailedData)
    (events : List HubEvent) :
    onUploadProgressUpdated d now prev
      = prev.filter (fun item => item.uploadId != d.UploadId)
          ++ [mkUpdate d now] ∧
    (mkUpdate d now).uploadId = d.UploadId ∧
    (onUploadProgressUpdated d now prev).length ≤ prev.length + 1 ∧
    (∀ item : UploadUpdate,
      item ∈ onUploadCompleted dc prev ↔
        item ∈ prev ∧ item.uploadId ≠ dc.UploadId) ∧
    (∀ item : UploadUpdate,
      item ∈ onUploadFailed df prev ↔
        item ∈ prev ∧ item.uploadId ≠ df.UploadId) ∧
    ((applyHubEvents events).map (fun item => item.uploadId)).Nodup := by
  refine ⟨rfl, rfl, ?_, ?_, ?_, ?_⟩
  · simp only [onUploadProgressUpdated, List.length_append, List.length_cons,
      List.length_nil]
    have := List.length_filter_le
      (fun item => item.uploadId != d.UploadId) prev
    omega
  · intro item
    simp [onUploadCompleted, List.mem_filter, bne_iff_ne]
  · intro item
    simp [onUploadFailed, List.mem_filter, bne_iff_ne]
  · exact applyHubEvents_foldl_nodup events [] (by simp)

/-- Claim C7, counterexample: the polling period is not 30000 ms on every
polling page — the upload-queue page polls every 10000 ms and the
API-data-sources page every 15000 ms. -/
theorem C7_counterexample :
    pollPeriodMs PollingPage.uploadQueue = 10000 ∧
    pollPeriodMs PollingPage.apiDataSources = 15000 ∧
    ¬ (∀ page : PollingPage, pollPeriodMs page = 30000) := by
  refine ⟨rfl, rfl, fun hall => ?_⟩
  exact absurd (hall PollingPage.uploadQueue) (by decide)

/-- Helper: along any event sequence, a registered timer always carries the
page's constant period. -/
theorem pageRun_timer_inv (page : PollingPage) (events : List PageEvent) :
    ∀ s : PageRuntime,
      (∀ t, s.timer = some t → t = pollPeriodMs page) →
      ∀ t, (events.foldl (pageStep page) s).timer = some t →
        t = pollPeriodMs page := by
  induction events with
  | nil => intro s h; simpa using h
  | cons e rest ih =>
    intro s h
    refine ih _ ?_
    intro t ht
    cases e with
    | mount =>
      simp only [pageStep] at ht
      exact (Option.some_inj.mp ht).symm
    | timerFire ok =>
      have htimer : (pageStep page s (PageEvent.timerFire ok)).timer
          = s.timer := by
        obtain ⟨tm, f, n⟩ := s
        cases tm <;> rfl
      rw [htimer] at ht
      exact h t ht
    | unmount => simp [pageStep] at ht

/-- Claim C7, amended: each polling page performs one data fetch on mount
and registers exactly one repeating timer with a fixed page-specific period
— 30000 ms for the dashboard and system-health pages, 10000 ms for the
upload-queue page, 15000 ms for the API-data-sources page — whose firing
re-runs the same fetch; the cleanup on unmount clears that timer (and runs
no fetch), no logic ever alters the registered period, and a failed poll
only adds a notification. -/
theorem C7_polling_lifecycle (page : PollingPage) (s : PageRuntime)
    (ok : Bool) (events : List PageEvent) :
    (pageStep page s PageEvent.mount).fetches = s.fetches + 1 ∧
    (pageStep page s PageEvent.mount).timer = some (pollPeriodMs page) ∧
    (pageRun page [PageEvent.mount]).fetches = 1 ∧
    (s.timer ≠ none →
      (pageStep page s (PageEvent.timerFire ok)).fetches = s.fetches + 1 ∧
      (pageStep page s (PageEvent.timerFire ok)).timer = s.timer) ∧
    (s.timer = none → pageStep page s (PageEvent.timerFire ok) = s) ∧
    (pageStep page s (PageEvent.timerFire false)).notifications
      ≤ s.notifications + 1 ∧
    (pageStep page s (PageEvent.timerFire true)).notifications
      = s.notifications ∧
    (pageStep page s PageEvent.unmount).timer = none ∧
    (pageStep page s PageEvent.unmount).fetches = s.fetches ∧
    (∀ t, (pageRun page events).timer = some t → t = pollPeriodMs page) ∧
    pollPeriodMs PollingPage.dashboard = 30000 ∧
    pollPeriodMs PollingPage.systemHealth = 30000 ∧
    pollPeriodMs PollingPage.uploadQueue = 10000 ∧
    pollPeriodMs PollingPage.apiDataSources = 15000 := by
  refine ⟨rfl, rfl, rfl, ?_, ?_, ?_, ?_, rfl, rfl, ?_, rfl, rfl, rfl, rfl⟩
  · intro hne
    cases hst : s.timer with
    | none => exact absurd hst hne
    | some p => exact ⟨by simp [pageStep, hst], by simp [pageStep, hst]⟩
  · intro hnone
    simp [pageStep, hnone]
  · cases hst : s.timer <;> simp [pageStep, hst]
  · cases hst : s.timer <;> simp [pageStep, hst]
  · exact pageRun_timer_inv page events initialRuntime (by simp [initialRuntime])

/-- Claim C7, witness: `C7_polling_lifecycle` instantiated on the
upload-queue page with a live 10000 ms timer and on its mount event. -/
theorem C7_witness :
    (pageStep PollingPage.uploadQueue
        { timer := some 10000, fetches := 1, notifications := 0 }
        (PageEvent.timerFire true)).fetches = 2 ∧
    (pageRun PollingPage.uploadQueue [PageEvent.mount]).timer = some 10000 := by
  have h := C7_polling_lifecycle PollingPage.uploadQueue
    { timer := some 10000, fetches := 1, notifications := 0 } true
    [PageEvent.mount]
  have h0 := C7_polling_lifecycle PollingPage.uploadQueue initialRuntime true
    [PageEvent.mount]
  exact ⟨(h.2.2.2.1 (by decide)).1, h0.2.1⟩

/-- Claim C8: `formatDuration` decomposes `milliseconds` with
`seconds = ⌊ms/1000⌋`, `minutes = ⌊seconds/60⌋`, `hours = ⌊minutes/60⌋`,
renders `"{hours}h {minutes % 60}m {seconds % 60}s"` when `hours > 0`,
`"{minutes}m {seconds % 60}s"` when `hours = 0 < minutes`, and
`"{seconds}s"` otherwise, and the three components always re-compose to
`⌊ms/1000⌋` seconds. -/
theorem C8_formatDuration (ms : Nat) :
    (ms / 1000 / 60 / 60 > 0 →
      formatDuration ms
        = toString (ms / 1000 / 60 / 60) ++ "h "
            ++ toString (ms / 1000 / 60 % 60) ++ "m "
            ++ toString (ms / 1000 % 60) ++ "s") ∧
    (ms / 1000 / 60 / 60 = 0 → ms / 1000 / 60 > 0 →
      formatDuration ms
        = toString (ms / 1000 / 60) ++ "m "
            ++ toString (ms / 1000 % 60) ++ "s") ∧
    (ms / 1000 / 60 = 0 → formatDuration ms = toString (ms / 1000) ++ "s") ∧
    (ms / 1000 / 60 / 60) * 3600 + (ms / 1000 / 60 % 60) * 60 + ms / 1000 % 60
      = ms / 1000 := by
  refine ⟨?_, ?_, ?_, by omega⟩
  · intro h
    simp only [formatDuration]
    rw [if_pos h]
  · intro h0 hm
    simp only [formatDuration]
    rw [if_neg (by omega), if_pos hm]
  · intro h
    simp only [formatDuration]
    rw [if_neg (by omega), if_neg (by omega)]

/-- Claim C8, witness: `C8_formatDuration` instantiated on inputs hitting
all three branches. -/
theorem C8_witness :
    formatDuration 3723000 = "1h 2m 3s" ∧
    formatDuration 123000 = "2m 3s" ∧
    formatDuration 45000 = "45s" := by
  refine ⟨?_, ?_, ?_⟩
  · rw [(C8_formatDuration 3723000).1 (by decide)]; decide
  · rw [(C8_formatDuration 123000).2.1 (by decide) (by decide)]; decide
  · rw [(C8_formatDuration 45000).2.2.1 (by decide)]; decide

/-- Claim C9: `formatFileSize 0 = "0 Bytes"`; for `1 ≤ bytes < 1024^4` the
unit index `⌊log bytes / log 1024⌋` stays inside the four-element table, so
the returned string carries one of the four units; for `bytes ≥ 1024^4` the
index leaves the table and the concatenated unit is JS `undefined`. -/
theorem C9_formatFileSize (bytes : Nat) :
    formatFileSize 0 = "0 Bytes" ∧
    (1 ≤ bytes → bytes < 1024 ^ 4 →
      jsUnitIndex bytes < 4 ∧ unitOf bytes ∈ sizes ∧
      formatFileSize bytes
        = sizeMantissa bytes (jsUnitIndex bytes) ++ " " ++ unitOf bytes) ∧
    (1024 ^ 4 ≤ bytes →
      4 ≤ jsUnitIndex bytes ∧ unitOf bytes = "undefined") := by
  refine ⟨rfl, ?_, ?_⟩
  · intro h1 h4
    have hlt : jsUnitIndex bytes < 4 := by
      unfold jsUnitIndex
      exact Nat.log_lt_of_lt_pow (by omega) h4
    refine ⟨hlt, ?_, ?_⟩
    · unfold unitOf
      set i := jsUnitIndex bytes with hi
      interval_cases i <;> decide
    · unfold formatFileSize
      rw [if_neg (by omega)]
  · intro h
    have hge : 4 ≤ jsUnitIndex bytes := by
      unfold jsUnitIndex
      exact (Nat.pow_le_iff_le_log (by norm_num) (by positivity)).mp h
    unfold unitOf
    exact ⟨hge, List.getD_eq_default _ _ (by simp [sizes]; omega)⟩

/-- Claim C9, witness: `C9_formatFileSize` instantiated at `bytes = 2048`
(inside the table) and at `bytes = 1024^4` (outside it). -/
theorem C9_witness :
    unitOf 2048 ∈ sizes ∧
    formatFileSize 2048
      = sizeMantissa 2048 (jsUnitIndex 2048) ++ " " ++ unitOf 2048 ∧
    unitOf (1024 ^ 4) = "undefined" := by
  have h := (C9_formatFileSize 2048).2.1 (by decide) (by norm_num)
  have h4 := (C9_formatFileSize (1024 ^ 4)).2.2 (le_refl _)
  exact ⟨h.2.1, h.2.2, h4.2⟩

/-- Helper: no status value renders to a name that lower-cases to
`"archived"`. -/
theorem statusPredA_archived_false (filters : Filters)
    (hst : filters.status = "archived") (item : RecentUpload) :
    statusPredA filters item = false := by
  unfold statusPredA
  rw [hst]
  unfold getStatusString
  split_ifs <;> decide

/-- Claim C10: `getStatusString` maps `FileStatus.Archived` (5) to
`"Canceled"` (not `"Archived"`) and every value outside `0..5` to
`"Unknown"`; consequently in the enum variant, selecting the status
`"archived"` matches no row regardless of the fetched data. -/
theorem C10_archived_status (queueData : List RecentUpload)
    (filters : Filters) (s : Int) :
    getStatusString FileStatus.Archived = "Canceled" ∧
    getStatusString FileStatus.Archived ≠ "Archived" ∧
    ((s < 0 ∨ 5 < s) → getStatusString s = "Unknown") ∧
    (filters.status = "archived" → applyFiltersA queueData filters = []) := by
  refine ⟨rfl, by decide, ?_, ?_⟩
  · intro hs
    simp only [getStatusString, FileStatus.Pending, FileStatus.Processing,
      FileStatus.Uploading, FileStatus.Completed, FileStatus.Failed,
      FileStatus.Archived]
    split_ifs <;> first | rfl | omega
  · intro hst
    have hne : (filters.status != "all") = true := by
      rw [hst]; decide
    simp only [applyFiltersA, hne, if_true]
    have hnil : queueData.filter (statusPredA filters) = [] := by
      rw [List.filter_eq_nil_iff]
      intro item _
      rw [statusPredA_archived_false filters hst item]
      simp
    rw [hnil]
    cases filters.fileType != "all" <;> cases filters.search != "" <;> simp

/-- Claim C10, witness: `C10_archived_status` instantiated on a one-row
queue whose row has status `Archived` and the filter selecting
`"archived"`, and on the out-of-range status `-1`. -/
theorem C10_witness :
    applyFiltersA [archivedRow] archivedFilters = [] ∧
    getStatusString (-1) = "Unknown" := by
  have h := C10_archived_status [archivedRow] archivedFilters (-1)
  exact ⟨h.2.2.2 rfl, h.2.2.1 (Or.inl (by norm_num))⟩
